import Mathlib

/-!
Shallow embedding of `src/replit_mcp_server.py`, the single source file of
the ai-workflow-continuity-mcp repository: a JSON-RPC style HTTP endpoint
(`POST /mcp`) dispatching to three tool handlers (`create_workflow_session`,
`save_workflow_memory`, `check_continuity_status`) that mutate two
process-wide in-memory collections (`workflow_sessions`, `workflow_memory`).

JSON request bodies are modelled by the inductive type `J`.  The Python
runtime behaviours the handlers rely on (dict `.get`, truthiness, f-string
interpolation via `str()`, string slicing `s[:150]`, `len`, `str.title()`)
are modelled explicitly.  Nondeterministic inputs (the uuid-derived 8-char
identifier and `datetime.now().isoformat()`) are passed as parameters.
-/

namespace WorkflowMcp

/-- A JSON value, as produced by parsing the request body.  Numbers are
modelled as integers (no claim involves fractional numbers). -/
inductive J where
  | null : J
  | bool (b : Bool) : J
  | num (n : Int) : J
  | str (s : String) : J
  | arr (xs : List J) : J
  | obj (kvs : List (String × J)) : J

/-- Python truthiness of a JSON-parsed value, as used by `if detailed:`. -/
def J.truthy : J → Bool
  | .null => false
  | .bool b => b
  | .num n => n != 0
  | .str s => s != ""
  | .arr xs => !xs.isEmpty
  | .obj kvs => !kvs.isEmpty

/-- Python `==` against a string literal: true exactly for the equal `str`.
Used for the `method == "..."` and `tool_name == "..."` dispatch tests. -/
def J.isStr : J → String → Bool
  | .str t, s => t == s
  | _, _ => false

/-- Python `dict.get(key, default)` on a parsed JSON object. -/
def jGet (kvs : List (String × J)) (k : String) (default : J) : J :=
  match kvs.lookup k with
  | some v => v
  | none => default

/-- A single-quote character, used when rendering Python `repr` output. -/
def squote : String := String.singleton (Char.ofNat 39)

/-- The Python type name of a JSON-parsed value, as it appears in
`TypeError` / `AttributeError` messages. -/
def pyTypeName : J → String
  | .null => "NoneType"
  | .bool _ => "bool"
  | .num _ => "int"
  | .str _ => "str"
  | .arr _ => "list"
  | .obj _ => "dict"

/-- Message of the `AttributeError` raised by calling `.get` on a value
that is not a dict. -/
def attrGetErr (j : J) : String :=
  squote ++ pyTypeName j ++ squote ++ " object has no attribute " ++ squote ++ "get" ++ squote

mutual

/-- Python `repr()` of a JSON-parsed value (quote escaping inside strings is
not modelled; no claim depends on it). -/
def pyRepr : J → String
  | .null => "None"
  | .bool true => "True"
  | .bool false => "False"
  | .num n => toString n
  | .str s => squote ++ s ++ squote
  | .arr xs => "[" ++ pyReprItems xs ++ "]"
  | .obj kvs => "\x7b" ++ pyReprPairs kvs ++ "\x7d"

/-- Comma-separated `repr`s of list elements. -/
def pyReprItems : List J → String
  | [] => ""
  | [x] => pyRepr x
  | x :: y :: xs => pyRepr x ++ ", " ++ pyReprItems (y :: xs)

/-- Comma-separated `repr`ed key-value pairs of a dict. -/
def pyReprPairs : List (String × J) → String
  | [] => ""
  | [(k, v)] => squote ++ k ++ squote ++ ": " ++ pyRepr v
  | (k, v) :: y :: xs => squote ++ k ++ squote ++ ": " ++ pyRepr v ++ ", " ++ pyReprPairs (y :: xs)

end

/-- Python `str()` of a JSON-parsed value, as used by f-string interpolation. -/
def pyStr : J → String
  | .str s => s
  | j => pyRepr j

/-- Helper for Python `str.title()`: the boolean tracks whether the
previous character was alphabetic (a cased character). -/
def pyTitleChars : List Char → Bool → List Char
  | [], _ => []
  | c :: cs, prev =>
    if c.isAlpha then
      (if prev then c.toLower else c.toUpper) :: pyTitleChars cs true
    else
      c :: pyTitleChars cs false

/-- Python `str.title()` (modelled for alphabetic characters). -/
def pyTitle (s : String) : String := String.mk (pyTitleChars s.data false)

/-- Python string slice `s[:n]`: the first `n` characters. -/
def pyTake (s : String) (n : Nat) : String := String.mk (s.data.take n)

/-- Python `content[:150]` followed by `str()` interpolation: defined for
`str` and `list`, a `TypeError` otherwise (mirroring CPython). -/
def pySlice150 : J → Except String String
  | .str s => .ok (pyTake s 150)
  | .arr xs => .ok (pyStr (J.arr (xs.take 150)))
  | .obj _ => .error ("unhashable type: " ++ squote ++ "slice" ++ squote)
  | j => .error (squote ++ pyTypeName j ++ squote ++ " object is not subscriptable")

/-- Python `len(content)`: defined for `str`, `list` and `dict`, a
`TypeError` otherwise. -/
def pyLen : J → Except String Nat
  | .str s => .ok s.length
  | .arr xs => .ok xs.length
  | .obj kvs => .ok kvs.length
  | j => .error ("object of type " ++ squote ++ pyTypeName j ++ squote ++ " has no len()")

/-- Python `importance.title()`: an `AttributeError` unless `importance`
is a string. -/
def pyTitleE : J → Except String String
  | .str s => .ok (pyTitle s)
  | j => .error (squote ++ pyTypeName j ++ squote ++ " object has no attribute " ++ squote ++ "title" ++ squote)

/-- A record of the `workflow_sessions` dict (source lines 166-171). -/
structure SessionRec where
  name : J
  purpose : J
  created_at : String
  status : String

/-- A record of the `workflow_memory` list (source lines 194-199). -/
structure MemoryRec where
  id : String
  content : J
  importance : J
  saved_at : String

/-- The two process-wide collections (source lines 84-85). -/
structure ServerState where
  workflow_sessions : List (String × SessionRec)
  workflow_memory : List MemoryRec

/-- Python dict assignment `d[k] = v` on an insertion-ordered dict with
distinct keys: replace in place when the key exists, append otherwise. -/
def dictInsert (kvs : List (String × SessionRec)) (k : String) (v : SessionRec) :
    List (String × SessionRec) :=
  match kvs with
  | [] => [(k, v)]
  | (k1, v1) :: rest => if k1 = k then (k, v) :: rest else (k1, v1) :: dictInsert rest k v

/-- The confirmation text of `create_workflow_session` (source lines 176-185). -/
def createText (sessionName purpose : J) (sessionId : String) : String :=
  "✅ **Workflow Session Created!**\n\n" ++
  "📋 **Details:**\n" ++
  "• Name: " ++ pyStr sessionName ++ "\n" ++
  "• Purpose: " ++ pyStr purpose ++ "\n" ++
  "• Session ID: " ++ sessionId ++ "\n" ++
  "• Status: Active\n\n" ++
  "🎯 **Continuity Features:**\n" ++
  "• Token limit monitoring: ✅\n" ++
  "• Context preservation: ✅\n" ++
  "• Zero-restart guarantee: ✅"

/-- The confirmation text of `save_workflow_memory` (source lines 204-208);
`preview` is the interpolated `content[:150]`, `n` is `len(content)`. -/
def saveText (preview : String) (n : Nat) (importanceTitle memoryId : String) (total : Nat) : String :=
  "💾 **Memory Saved Successfully!**\n\n" ++
  "📝 Content: " ++ preview ++ (if 150 < n then "..." else "") ++ "\n" ++
  "⚡ Importance: " ++ importanceTitle ++ "\n" ++
  "🆔 Memory ID: " ++ memoryId ++ "\n" ++
  "📊 Total memories: " ++ toString total

/-- The verbose status report of `check_continuity_status` (source lines 216-232). -/
def detailedText (ns nm : Nat) : String :=
  "🎯 **AI Workflow Continuity Status**\n\n" ++
  "✅ **System Status:** Fully Operational\n" ++
  "🔄 **Continuity Rate:** 96.7% (Target: 95% ✅)\n" ++
  "📈 **Quality Retention:** 92.3% (Target: 90% ✅)\n" ++
  "⚡ **Response Time:** 0.03s (Target: <2s ✅)\n" ++
  "🛡️ **Availability:** 99.7% (Target: 99.5% ✅)\n\n" ++
  "📊 **Current Stats:**\n" ++
  "• Active sessions: " ++ toString ns ++ "\n" ++
  "• Memory items: " ++ toString nm ++ "\n" ++
  "• Public URL: Connected ✅\n\n" ++
  "🏆 **Achievement Status:**\n" ++
  "• Primary Goal: **FULLY ACHIEVED**\n" ++
  "• Token restart elimination: ✅\n" ++
  "• All performance targets: **EXCEEDED**"

/-- The single-line status summary (source line 234). -/
def briefText (ns nm : Nat) : String :=
  "✅ System operational | Sessions: " ++ toString ns ++ " | Memory: " ++ toString nm

/-- The `create_workflow_session` branch of `execute_tool`
(source lines 161-187).  `fid` is `str(uuid.uuid4())[:8]`, `now` is
`datetime.now().isoformat()`.  A non-dict `arguments` raises at
`arguments.get` before any mutation. -/
def createSessionTool (arguments : J) (fid now : String) (st : ServerState) :
    Except String String × ServerState :=
  match arguments with
  | J.obj kvs =>
    let session_name := jGet kvs "session_name" J.null
    let purpose := jGet kvs "purpose" (J.str "General")
    let st2 : ServerState :=
      { st with workflow_sessions :=
          dictInsert st.workflow_sessions fid ⟨session_name, purpose, now, "active"⟩ }
    (.ok (createText session_name purpose fid), st2)
  | a => (.error (attrGetErr a), st)

/-- The `save_workflow_memory` branch of `execute_tool` (source lines
189-210).  The append to `workflow_memory` happens before the confirmation
f-string is evaluated, so a `TypeError`/`AttributeError` raised while
formatting (non-string `content` or `importance`) leaves the appended
record behind. -/
def saveMemoryTool (arguments : J) (fid now : String) (st : ServerState) :
    Except String String × ServerState :=
  match arguments with
  | J.obj kvs =>
    let content := jGet kvs "content" J.null
    let importance := jGet kvs "importance" (J.str "medium")
    let st2 : ServerState :=
      { st with workflow_memory := st.workflow_memory ++ [⟨fid, content, importance, now⟩] }
    match pySlice150 content with
    | .error e => (.error e, st2)
    | .ok preview =>
      match pyLen content with
      | .error e => (.error e, st2)
      | .ok n =>
        match pyTitleE importance with
        | .error e => (.error e, st2)
        | .ok t => (.ok (saveText preview n t fid st2.workflow_memory.length), st2)
  | a => (.error (attrGetErr a), st)

/-- The `check_continuity_status` branch of `execute_tool`
(source lines 212-241): no mutation; branch on the truthiness of
`arguments.get("detailed", True)`. -/
def checkStatusTool (arguments : J) (st : ServerState) :
    Except String String × ServerState :=
  match arguments with
  | J.obj kvs =>
    let detailed := jGet kvs "detailed" (J.bool true)
    if detailed.truthy then
      (.ok (detailedText st.workflow_sessions.length st.workflow_memory.length), st)
    else
      (.ok (briefText st.workflow_sessions.length st.workflow_memory.length), st)
  | a => (.error (attrGetErr a), st)

/-- `execute_tool` (source lines 158-244): dispatch on the tool name; an
unknown tool raises `ValueError(f"Unknown tool: ...")`.  The result is the
text of the returned content block, or the raised exception message. -/
def execute_tool (tool_name arguments : J) (fid now : String) (st : ServerState) :
    Except String String × ServerState :=
  if tool_name.isStr "create_workflow_session" then
    createSessionTool arguments fid now st
  else if tool_name.isStr "save_workflow_memory" then
    saveMemoryTool arguments fid now st
  else if tool_name.isStr "check_continuity_status" then
    checkStatusTool arguments st
  else
    (.error ("Unknown tool: " ++ pyStr tool_name), st)

/-- A JSON-RPC error object `error: code, message`. -/
structure RpcError where
  code : Int
  message : String

/-- The HTTP response of `POST /mcp`: status code, echoed `jsonrpc` and
`id` fields, and either a `result` value or an `error` object. -/
structure HttpResp where
  status : Nat
  jsonrpc : J
  id : J
  payload : Except RpcError J

/-- Wraps a tool handler text into the MCP result shape
`content: [ type: "text", text ]`. -/
def toolResultJ (text : String) : J :=
  J.obj [("content", J.arr [J.obj [("type", J.str "text"), ("text", J.str text)]])]

/-- The `initialize` result (source lines 124-129). -/
def initResult : J :=
  J.obj [("protocolVersion", J.str "2024-11-05"),
         ("capabilities", J.obj [("tools", J.obj [])]),
         ("serverInfo", J.obj [("name", J.str "ai-workflow-continuity-system"),
                               ("version", J.str "1.0.0")])]

/-- The static `TOOLS` list (source lines 46-81). -/
def toolsJ : J := J.arr [
  J.obj [("name", J.str "create_workflow_session"),
         ("description", J.str "Create a new workflow session for conversation continuity"),
         ("inputSchema", J.obj [
            ("type", J.str "object"),
            ("properties", J.obj [
               ("session_name", J.obj [("type", J.str "string"),
                                       ("description", J.str "Session name")]),
               ("purpose", J.obj [("type", J.str "string"),
                                  ("description", J.str "Session purpose"),
                                  ("default", J.str "General")])]),
            ("required", J.arr [J.str "session_name"])])],
  J.obj [("name", J.str "save_workflow_memory"),
         ("description", J.str "Save important information to workflow memory"),
         ("inputSchema", J.obj [
            ("type", J.str "object"),
            ("properties", J.obj [
               ("content", J.obj [("type", J.str "string"),
                                  ("description", J.str "Content to save")]),
               ("importance", J.obj [("type", J.str "string"),
                                     ("enum", J.arr [J.str "high", J.str "medium", J.str "low"]),
                                     ("default", J.str "medium")])]),
            ("required", J.arr [J.str "content"])])],
  J.obj [("name", J.str "check_continuity_status"),
         ("description", J.str "Check AI workflow continuity system status and metrics"),
         ("inputSchema", J.obj [
            ("type", J.str "object"),
            ("properties", J.obj [
               ("detailed", J.obj [("type", J.str "boolean"),
                                   ("description", J.str "Show detailed metrics"),
                                   ("default", J.bool true)])])])]]

/-- The `tools/list` result (source line 132). -/
def toolsListResult : J := J.obj [("tools", toolsJ)]

/-- Wrapping of an `execute_tool` outcome into the HTTP response: a normal
return becomes the 200 `result` envelope (source lines 146-148); a raised
exception reaches the catch-all and becomes the 500 envelope with code
-32603 and the hardcoded `"2.0"` (source lines 150-156). -/
def toolCallResponse (jsonrpc request_id : J) (r : Except String String × ServerState) :
    HttpResp × ServerState :=
  match r with
  | (.ok text, st2) => (⟨200, jsonrpc, request_id, .ok (toolResultJ text)⟩, st2)
  | (.error msg, st2) => (⟨500, J.str "2.0", request_id, .error ⟨-32603, msg⟩⟩, st2)

/-- The `tools/call` branch (source lines 134-137): extract `params.name`
and `params.arguments` and run the tool; `params.get` on a non-dict
`params` raises an `AttributeError` that reaches the catch-all. -/
def toolsCallDispatch (jsonrpc request_id params : J) (fid now : String) (st : ServerState) :
    HttpResp × ServerState :=
  match params with
  | J.obj pkvs =>
    toolCallResponse jsonrpc request_id
      (execute_tool (jGet pkvs "name" J.null) (jGet pkvs "arguments" (J.obj [])) fid now st)
  | p => (⟨500, J.str "2.0", request_id, .error ⟨-32603, attrGetErr p⟩⟩, st)

/-- `mcp_endpoint` (source lines 112-156) applied to an already parsed
JSON body.  A non-dict body raises `AttributeError` at `data.get` before
`request_id` is bound, so the catch-all (lines 150-156) answers with id
`None`, code `-32603` and HTTP 500.  An unknown method answers with code
`-32601` and HTTP 200.  Exceptions from `execute_tool` reach the same
catch-all, after `request_id` was bound. -/
def mcp_endpoint (body : J) (fid now : String) (st : ServerState) :
    HttpResp × ServerState :=
  match body with
  | J.obj data =>
    let jsonrpc := jGet data "jsonrpc" (J.str "2.0")
    let method := jGet data "method" J.null
    let params := jGet data "params" (J.obj [])
    let request_id := jGet data "id" J.null
    if method.isStr "initialize" then
      (⟨200, jsonrpc, request_id, .ok initResult⟩, st)
    else if method.isStr "tools/list" then
      (⟨200, jsonrpc, request_id, .ok toolsListResult⟩, st)
    else if method.isStr "tools/call" then
      toolsCallDispatch jsonrpc request_id params fid now st
    else
      (⟨200, jsonrpc, request_id, .error ⟨-32601, "Method not found: " ++ pyStr method⟩⟩, st)
  | b => (⟨500, J.str "2.0", J.null, .error ⟨-32603, attrGetErr b⟩⟩, st)

/-- The state at process start: both collections empty (source lines 84-85). -/
def initialState : ServerState := ⟨[], []⟩

/-- States reachable from process start by any sequence of `POST /mcp`
requests (arbitrary bodies, generated ids and timestamps). -/
inductive Reachable : ServerState → Prop where
  | init : Reachable initialState
  | step (body : J) (fid now : String) {st : ServerState} :
      Reachable st → Reachable (mcp_endpoint body fid now st).2

/-- True when the response carries an `error` object rather than a `result`. -/
def HttpResp.isErr (r : HttpResp) : Bool :=
  match r.payload with
  | .error _ => true
  | .ok _ => false

/-- The body of a `tools/call` request for `create_workflow_session` whose
arguments object does not contain `session_name`. -/
def reqMissingSessionName : J :=
  J.obj [("jsonrpc", J.str "2.0"), ("id", J.num 1), ("method", J.str "tools/call"),
         ("params", J.obj [("name", J.str "create_workflow_session"),
                           ("arguments", J.obj [])])]

/-- The body of a `tools/call` request for `save_workflow_memory` whose
arguments object does not contain `content`. -/
def reqSaveNoContent : J :=
  J.obj [("jsonrpc", J.str "2.0"), ("id", J.num 2), ("method", J.str "tools/call"),
         ("params", J.obj [("name", J.str "save_workflow_memory"),
                           ("arguments", J.obj [])])]

/-- A concrete stored session used in witnesses. -/
def demoSession : SessionRec := ⟨J.str "n", J.str "General", "T0", "active"⟩

/-- A concrete state holding `demoSession` under key `s1`. -/
def demoState : ServerState := ⟨[("s1", demoSession)], []⟩

/-! ### Helper lemmas about the embedded operations -/

lemma dictInsert_length_of_lookup_none (l : List (String × SessionRec)) (k : String)
    (v : SessionRec) (h : l.lookup k = none) :
    (dictInsert l k v).length = l.length + 1 := by
  induction l with
  | nil => rfl
  | cons p rest ih =>
    obtain ⟨k1, v1⟩ := p
    simp only [List.lookup] at h
    cases hb : (k == k1) with
    | true =>
      rw [hb] at h
      simp at h
    | false =>
      rw [hb] at h
      simp only at h
      have hk : ¬ (k1 = k) := by
        intro e
        rw [e] at hb
        simp at hb
      simp [dictInsert, hk, ih h]

lemma dictInsert_lookup_self (l : List (String × SessionRec)) (k : String) (v : SessionRec) :
    (dictInsert l k v).lookup k = some v := by
  induction l with
  | nil => simp [dictInsert, List.lookup]
  | cons p rest ih =>
    obtain ⟨k1, v1⟩ := p
    by_cases hk : k1 = k
    · subst hk
      simp [dictInsert, List.lookup]
    · simp only [dictInsert, if_neg hk, List.lookup]
      have hb : (k == k1) = false := by
        simp [beq_eq_false_iff_ne, Ne.symm hk]
      rw [hb]
      exact ih

lemma mem_dictInsert (p : String × SessionRec) (l : List (String × SessionRec))
    (k : String) (v : SessionRec) (h : p ∈ dictInsert l k v) : p ∈ l ∨ p = (k, v) := by
  induction l with
  | nil => simpa [dictInsert] using h
  | cons q rest ih =>
    obtain ⟨k1, v1⟩ := q
    by_cases hk : k1 = k
    · simp only [dictInsert, if_pos hk, List.mem_cons] at h
      rcases h with h | h
      · exact Or.inr h
      · exact Or.inl (List.mem_cons_of_mem _ h)
    · simp only [dictInsert, if_neg hk, List.mem_cons] at h
      rcases h with h | h
      · exact Or.inl (by simp [h])
      · rcases ih h with h2 | h2
        · exact Or.inl (List.mem_cons_of_mem _ h2)
        · exact Or.inr h2

lemma dictInsert_lookup_isSome (l : List (String × SessionRec)) (k : String) (v : SessionRec) :
    ((dictInsert l k v).lookup k).isSome = true := by
  rw [dictInsert_lookup_self]
  rfl

lemma mem_dictInsert_of_ne (p : String × SessionRec) (l : List (String × SessionRec))
    (k : String) (v : SessionRec) (hp : p ∈ l) (hne : p.1 ≠ k) :
    p ∈ dictInsert l k v := by
  induction l with
  | nil => cases hp
  | cons q rest ih =>
    obtain ⟨k1, v1⟩ := q
    rcases List.mem_cons.mp hp with h | h
    · subst h
      by_cases hk : k1 = k
      · exact absurd hk hne
      · simp [dictInsert, hk]
    · by_cases hk : k1 = k
      · simp only [dictInsert, if_pos hk]
        exact List.mem_cons_of_mem _ h
      · simp only [dictInsert, if_neg hk]
        exact List.mem_cons_of_mem _ (ih h)

lemma execute_tool_create (args : J) (fid now : String) (st : ServerState) :
    execute_tool (J.str "create_workflow_session") args fid now st =
      createSessionTool args fid now st := rfl

lemma execute_tool_save (args : J) (fid now : String) (st : ServerState) :
    execute_tool (J.str "save_workflow_memory") args fid now st =
      saveMemoryTool args fid now st := rfl

lemma execute_tool_check (args : J) (fid now : String) (st : ServerState) :
    execute_tool (J.str "check_continuity_status") args fid now st =
      checkStatusTool args st := rfl

lemma createSessionTool_error_state (args : J) (fid now : String) (st : ServerState)
    (e : String) (h : (createSessionTool args fid now st).1 = .error e) :
    (createSessionTool args fid now st).2 = st := by
  cases args
  case obj kvs => simp [createSessionTool] at h
  all_goals rfl

lemma saveMemoryTool_obj_state (kvs : List (String × J)) (fid now : String) (st : ServerState) :
    (saveMemoryTool (J.obj kvs) fid now st).2 =
      { st with workflow_memory := st.workflow_memory ++
          [⟨fid, jGet kvs "content" J.null, jGet kvs "importance" (J.str "medium"), now⟩] } := by
  simp only [saveMemoryTool]
  split
  · rfl
  split
  · rfl
  split <;> rfl

lemma saveMemoryTool_state (args : J) (fid now : String) (st : ServerState) :
    (saveMemoryTool args fid now st).2.workflow_sessions = st.workflow_sessions ∧
    ((saveMemoryTool args fid now st).2.workflow_memory = st.workflow_memory ∨
     ∃ m : MemoryRec,
       (saveMemoryTool args fid now st).2.workflow_memory = st.workflow_memory ++ [m]) := by
  cases args
  case obj kvs =>
    rw [saveMemoryTool_obj_state]
    exact ⟨rfl, Or.inr ⟨_, rfl⟩⟩
  all_goals exact ⟨rfl, Or.inl rfl⟩

lemma checkStatusTool_state (args : J) (st : ServerState) :
    (checkStatusTool args st).2 = st := by
  cases args
  case obj kvs =>
    simp only [checkStatusTool]
    split <;> rfl
  all_goals rfl

/-- If `execute_tool` raises, the session dict is untouched, and the memory
list is either untouched or has exactly one record appended (the
`save_workflow_memory` append that precedes the failing formatting). -/
lemma execute_tool_error_state (tn args : J) (fid now : String) (st : ServerState)
    (e : String) (h : (execute_tool tn args fid now st).1 = .error e) :
    (execute_tool tn args fid now st).2.workflow_sessions = st.workflow_sessions ∧
    ((execute_tool tn args fid now st).2.workflow_memory = st.workflow_memory ∨
     ∃ m : MemoryRec,
       (execute_tool tn args fid now st).2.workflow_memory = st.workflow_memory ++ [m]) := by
  unfold execute_tool at h ⊢
  by_cases h1 : tn.isStr "create_workflow_session" = true
  · rw [if_pos h1] at h ⊢
    rw [createSessionTool_error_state args fid now st e h]
    exact ⟨rfl, Or.inl rfl⟩
  · rw [if_neg h1] at h ⊢
    by_cases h2 : tn.isStr "save_workflow_memory" = true
    · rw [if_pos h2] at h ⊢
      exact saveMemoryTool_state args fid now st
    · rw [if_neg h2] at h ⊢
      by_cases h3 : tn.isStr "check_continuity_status" = true
      · rw [if_pos h3] at h ⊢
        rw [checkStatusTool_state args st]
        exact ⟨rfl, Or.inl rfl⟩
      · rw [if_neg h3] at h ⊢
        exact ⟨rfl, Or.inl rfl⟩

lemma toolCallResponse_snd (j i : J) (r : Except String String × ServerState) :
    (toolCallResponse j i r).2 = r.2 := by
  rcases r with ⟨res, s⟩
  cases res <;> rfl

lemma toolCallResponse_isErr (j i : J) (r : Except String String × ServerState) :
    (toolCallResponse j i r).1.isErr = true ↔ ∃ e, r.1 = .error e := by
  rcases r with ⟨res, s⟩
  cases res <;> simp [toolCallResponse, HttpResp.isErr]

lemma toolCallResponse_fst_congr (j i : J) (r1 r2 : Except String String × ServerState)
    (h : r1.1 = r2.1) : (toolCallResponse j i r1).1 = (toolCallResponse j i r2).1 := by
  rcases r1 with ⟨res1, s1⟩
  rcases r2 with ⟨res2, s2⟩
  have h2 : res1 = res2 := h
  subst h2
  cases res1 <;> rfl

/-- If a `tools/call` dispatch answers with an error envelope, the session
dict is untouched and the memory list grew by at most the one appended
record. -/
lemma toolsCallDispatch_error_state (j i p : J) (fid now : String) (st : ServerState)
    (h : (toolsCallDispatch j i p fid now st).1.isErr = true) :
    (toolsCallDispatch j i p fid now st).2.workflow_sessions = st.workflow_sessions ∧
    ((toolsCallDispatch j i p fid now st).2.workflow_memory = st.workflow_memory ∨
     ∃ m : MemoryRec,
       (toolsCallDispatch j i p fid now st).2.workflow_memory = st.workflow_memory ++ [m]) := by
  cases p with
  | obj pkvs =>
    simp only [toolsCallDispatch] at h ⊢
    obtain ⟨e, he⟩ := (toolCallResponse_isErr _ _ _).mp h
    have hmain := execute_tool_error_state _ _ fid now st e he
    rw [toolCallResponse_snd]
    exact hmain
  | null => exact ⟨rfl, Or.inl rfl⟩
  | bool b => exact ⟨rfl, Or.inl rfl⟩
  | num n => exact ⟨rfl, Or.inl rfl⟩
  | str s => exact ⟨rfl, Or.inl rfl⟩
  | arr xs => exact ⟨rfl, Or.inl rfl⟩

/-! ### Claim theorems -/

/-- C1: the claim (and the spec) say a `create_workflow_session` call
without `session_name` fails with a missing-required-argument condition
surfacing as a -32603 error envelope, with no session added.  The code
never validates against the declared `inputSchema` (which lists
`session_name` under `required`): `arguments.get("session_name")` yields
`None`, the handler succeeds with HTTP 200 and a `result` payload, and a
session whose name is `None` IS inserted.  This theorem evaluates the code
at the failing input. -/
theorem missingSessionName_succeeds_and_inserts :
    (mcp_endpoint reqMissingSessionName "abc12345" "2026-01-01T00:00:00" initialState).1.status
        = 200 ∧
    (mcp_endpoint reqMissingSessionName "abc12345" "2026-01-01T00:00:00" initialState).1.isErr
        = false ∧
    (mcp_endpoint reqMissingSessionName "abc12345" "2026-01-01T00:00:00"
        initialState).2.workflow_sessions.length = 1 ∧
    (mcp_endpoint reqMissingSessionName "abc12345" "2026-01-01T00:00:00"
        initialState).2.workflow_sessions.lookup "abc12345"
      = some ⟨J.null, J.str "General", "2026-01-01T00:00:00", "active"⟩ :=
  ⟨rfl, rfl, rfl, rfl⟩

/-- C2 counterexample: a `save_workflow_memory` call without `content`
produces a JSON-RPC error envelope (code -32603, HTTP 500, raised by
`content[:150]` on `None`), yet the memory list has grown from 0 to 1
records: the append at source line 194 precedes the failing f-string, so
this failure path leaves a partially applied mutation. -/
theorem toolCall_error_with_partial_mutation :
    (mcp_endpoint reqSaveNoContent "id1" "T0" initialState).1.isErr = true ∧
    (mcp_endpoint reqSaveNoContent "id1" "T0" initialState).1.status = 500 ∧
    (mcp_endpoint reqSaveNoContent "id1" "T0" initialState).1.payload
      = .error ⟨-32603, squote ++ "NoneType" ++ squote ++ " object is not subscriptable"⟩ ∧
    initialState.workflow_memory.length = 0 ∧
    (mcp_endpoint reqSaveNoContent "id1" "T0" initialState).2.workflow_memory.length = 1 :=
  ⟨rfl, rfl, rfl, rfl, rfl⟩

/-- C2 amended: every request that yields a JSON-RPC error envelope leaves
the session dict exactly as it was, and leaves the memory list either
unchanged or — only on the `save_workflow_memory` path whose append
precedes the failing confirmation formatting — longer by exactly the one
appended record. -/
theorem error_envelope_mutation_bound (body : J) (fid now : String) (st : ServerState)
    (h : (mcp_endpoint body fid now st).1.isErr = true) :
    (mcp_endpoint body fid now st).2.workflow_sessions = st.workflow_sessions ∧
    ((mcp_endpoint body fid now st).2.workflow_memory = st.workflow_memory ∨
     ∃ m : MemoryRec,
       (mcp_endpoint body fid now st).2.workflow_memory = st.workflow_memory ++ [m]) := by
  revert h
  cases body with
  | obj data =>
    simp only [mcp_endpoint]
    by_cases h1 : (jGet data "method" J.null).isStr "initialize" = true
    · rw [if_pos h1]
      intro h
      simp [HttpResp.isErr] at h
    rw [if_neg h1]
    by_cases h2 : (jGet data "method" J.null).isStr "tools/list" = true
    · rw [if_pos h2]
      intro h
      simp [HttpResp.isErr] at h
    rw [if_neg h2]
    by_cases h3 : (jGet data "method" J.null).isStr "tools/call" = true
    · rw [if_pos h3]
      exact toolsCallDispatch_error_state _ _ _ fid now st
    · rw [if_neg h3]
      exact fun _ => ⟨rfl, Or.inl rfl⟩
  | null => exact fun _ => ⟨rfl, Or.inl rfl⟩
  | bool b => exact fun _ => ⟨rfl, Or.inl rfl⟩
  | num n => exact fun _ => ⟨rfl, Or.inl rfl⟩
  | str s => exact fun _ => ⟨rfl, Or.inl rfl⟩
  | arr xs => exact fun _ => ⟨rfl, Or.inl rfl⟩

/-- Witness for the amended C2 at a concrete erring input: the
no-`content` save call errs, and the collections change only by the one
appended memory record. -/
theorem error_envelope_mutation_bound_witness :
    (mcp_endpoint reqSaveNoContent "id1" "T0" initialState).1.isErr = true ∧
    ((mcp_endpoint reqSaveNoContent "id1" "T0" initialState).2.workflow_sessions
        = initialState.workflow_sessions ∧
     ((mcp_endpoint reqSaveNoContent "id1" "T0" initialState).2.workflow_memory
        = initialState.workflow_memory ∨
      ∃ m : MemoryRec,
        (mcp_endpoint reqSaveNoContent "id1" "T0" initialState).2.workflow_memory
          = initialState.workflow_memory ++ [m])) :=
  ⟨rfl, error_envelope_mutation_bound reqSaveNoContent "id1" "T0" initialState rfl⟩

/-- C5: any parsed object body whose `method` is none of `initialize`,
`tools/list`, `tools/call` gets a -32601 error envelope whose message
names the method, HTTP 200, the request id echoed, and an unchanged
state. -/
theorem unknown_method_error (data : List (String × J)) (fid now : String) (st : ServerState)
    (h1 : (jGet data "method" J.null).isStr "initialize" = false)
    (h2 : (jGet data "method" J.null).isStr "tools/list" = false)
    (h3 : (jGet data "method" J.null).isStr "tools/call" = false) :
    mcp_endpoint (J.obj data) fid now st =
      (⟨200, jGet data "jsonrpc" (J.str "2.0"), jGet data "id" J.null,
        .error ⟨-32601, "Method not found: " ++ pyStr (jGet data "method" J.null)⟩⟩, st) := by
  simp only [mcp_endpoint, h1, h2, h3]
  simp

/-- Witness for C5: `method = "ping"` satisfies the hypotheses and is
answered by a -32601 envelope naming `ping`, HTTP 200, id echoed, state
unchanged. -/
theorem unknown_method_error_witness :
    ((jGet [("method", J.str "ping"), ("id", J.num 7)] "method" J.null).isStr "initialize"
        = false ∧
     (jGet [("method", J.str "ping"), ("id", J.num 7)] "method" J.null).isStr "tools/list"
        = false ∧
     (jGet [("method", J.str "ping"), ("id", J.num 7)] "method" J.null).isStr "tools/call"
        = false) ∧
    mcp_endpoint (J.obj [("method", J.str "ping"), ("id", J.num 7)]) "f" "t" initialState =
      (⟨200, J.str "2.0", J.num 7, .error ⟨-32601, "Method not found: ping"⟩⟩, initialState) :=
  ⟨⟨rfl, rfl, rfl⟩,
   unknown_method_error [("method", J.str "ping"), ("id", J.num 7)] "f" "t" initialState
     rfl rfl rfl⟩

/-- C6: a `tools/call` whose `params.name` is none of the three tool names
gets a -32603 error envelope naming the unknown tool, with HTTP 500. -/
theorem unknown_tool_error (data pkvs : List (String × J)) (fid now : String) (st : ServerState)
    (hm : jGet data "method" J.null = J.str "tools/call")
    (hp : jGet data "params" (J.obj []) = J.obj pkvs)
    (h1 : (jGet pkvs "name" J.null).isStr "create_workflow_session" = false)
    (h2 : (jGet pkvs "name" J.null).isStr "save_workflow_memory" = false)
    (h3 : (jGet pkvs "name" J.null).isStr "check_continuity_status" = false) :
    mcp_endpoint (J.obj data) fid now st =
      (⟨500, J.str "2.0", jGet data "id" J.null,
        .error ⟨-32603, "Unknown tool: " ++ pyStr (jGet pkvs "name" J.null)⟩⟩, st) := by
  simp only [mcp_endpoint, hm, hp, toolsCallDispatch, execute_tool, h1, h2, h3]
  simp [J.isStr, toolCallResponse]

/-- Witness for C6: tool name `bogus` yields the -32603 envelope
`Unknown tool: bogus` with HTTP 500. -/
theorem unknown_tool_error_witness :
    (jGet [("method", J.str "tools/call"), ("id", J.num 9),
           ("params", J.obj [("name", J.str "bogus")])] "method" J.null
        = J.str "tools/call") ∧
    mcp_endpoint
        (J.obj [("method", J.str "tools/call"), ("id", J.num 9),
                ("params", J.obj [("name", J.str "bogus")])]) "f" "t" initialState =
      (⟨500, J.str "2.0", J.num 9, .error ⟨-32603, "Unknown tool: bogus"⟩⟩, initialState) :=
  ⟨rfl,
   unknown_tool_error [("method", J.str "tools/call"), ("id", J.num 9),
      ("params", J.obj [("name", J.str "bogus")])] [("name", J.str "bogus")]
      "f" "t" initialState rfl rfl rfl rfl rfl⟩

/-- C9: the `detailed` branch is decided by Python truthiness, not by
boolean equality: any falsy argument value (`None`, `0`, `""`, `[]`,
`{}` — not only `false`) selects the single-line summary even though the
declared default for an absent `detailed` is `true`. -/
theorem detailed_falsy_gives_summary (kvs : List (String × J)) (fid now : String)
    (st : ServerState)
    (h : (jGet kvs "detailed" (J.bool true)).truthy = false) :
    execute_tool (J.str "check_continuity_status") (J.obj kvs) fid now st =
      (.ok (briefText st.workflow_sessions.length st.workflow_memory.length), st) := by
  rw [execute_tool_check]
  simp only [checkStatusTool, h]
  simp

lemma pyTake_of_le (s : String) (n : Nat) (h : s.length ≤ n) : pyTake s n = s := by
  unfold pyTake
  rw [List.take_of_length_le h]

/-- Full behaviour of the `save_workflow_memory` handler when `content`
and `importance` are strings: append the record, then return the
confirmation built from the slice, length test and title-cased
importance. -/
lemma saveMemoryTool_str_spec (kvs : List (String × J)) (content imp fid now : String)
    (st : ServerState)
    (hc : jGet kvs "content" J.null = J.str content)
    (hi : jGet kvs "importance" (J.str "medium") = J.str imp) :
    saveMemoryTool (J.obj kvs) fid now st =
      (.ok (saveText (pyTake content 150) content.length (pyTitle imp) fid
              (st.workflow_memory.length + 1)),
       { st with workflow_memory :=
           st.workflow_memory ++ [⟨fid, J.str content, J.str imp, now⟩] }) := by
  simp only [saveMemoryTool, hc, hi, pySlice150, pyLen, pyTitleE]
  simp

/-- C3: a valid `save_workflow_memory` call (string `content`, string
`importance`) grows the memory list by exactly one; the confirmation
previews the first 150 characters followed by `...` when `content` is
longer than 150 characters and `content` verbatim otherwise, and reports
the new total equal to the post-call list length. -/
theorem save_memory_appends_and_previews (kvs : List (String × J))
    (content imp fid now : String) (st : ServerState)
    (hc : jGet kvs "content" J.null = J.str content)
    (hi : jGet kvs "importance" (J.str "medium") = J.str imp) :
    (execute_tool (J.str "save_workflow_memory") (J.obj kvs) fid now
        st).2.workflow_memory.length = st.workflow_memory.length + 1 ∧
    (execute_tool (J.str "save_workflow_memory") (J.obj kvs) fid now st).1 =
      .ok ("💾 **Memory Saved Successfully!**\n\n" ++
           "📝 Content: " ++
           (if 150 < content.length
            then String.mk (content.data.take 150) ++ "..."
            else content) ++ "\n" ++
           "⚡ Importance: " ++ pyTitle imp ++ "\n" ++
           "🆔 Memory ID: " ++ fid ++ "\n" ++
           "📊 Total memories: " ++
           toString ((execute_tool (J.str "save_workflow_memory") (J.obj kvs) fid now
               st).2.workflow_memory.length)) := by
  rw [execute_tool_save, saveMemoryTool_str_spec kvs content imp fid now st hc hi]
  refine ⟨by simp, ?_⟩
  by_cases hlen : 150 < content.length
  · simp [saveText, pyTake, hlen, String.append_assoc]
  · rw [pyTake_of_le content 150 (Nat.le_of_not_lt hlen)]
    simp [saveText, hlen, String.append_assoc]

/-- Witness for C3 at `content = "hello"`, `importance = "low"`. -/
theorem save_memory_appends_and_previews_witness :
    (jGet [("content", J.str "hello"), ("importance", J.str "low")] "content" J.null
        = J.str "hello") ∧
    (execute_tool (J.str "save_workflow_memory")
        (J.obj [("content", J.str "hello"), ("importance", J.str "low")]) "m1" "T"
        initialState).2.workflow_memory.length = initialState.workflow_memory.length + 1 :=
  ⟨rfl,
   (save_memory_appends_and_previews [("content", J.str "hello"), ("importance", J.str "low")]
      "hello" "low" "m1" "T" initialState rfl rfl).1⟩

/-- C10: `importance` is never validated against the declared enumeration:
for any string `importance` whatsoever the call succeeds, the appended
record stores that string verbatim, and the confirmation reports it
title-cased. -/
theorem importance_not_validated (kvs : List (String × J))
    (content imp fid now : String) (st : ServerState)
    (hc : jGet kvs "content" J.null = J.str content)
    (hi : jGet kvs "importance" (J.str "medium") = J.str imp) :
    (execute_tool (J.str "save_workflow_memory") (J.obj kvs) fid now st).2.workflow_memory
        = st.workflow_memory ++ [⟨fid, J.str content, J.str imp, now⟩] ∧
    (execute_tool (J.str "save_workflow_memory") (J.obj kvs) fid now st).1 =
      .ok (saveText (pyTake content 150) content.length (pyTitle imp) fid
             (st.workflow_memory.length + 1)) := by
  rw [execute_tool_save, saveMemoryTool_str_spec kvs content imp fid now st hc hi]
  exact ⟨rfl, rfl⟩

/-- Witness for C10: the out-of-enumeration importance `urgent!!` is
stored verbatim and reported as `Urgent!!`. -/
theorem importance_not_validated_witness :
    (jGet [("content", J.str "x"), ("importance", J.str "urgent!!")] "importance"
        (J.str "medium") = J.str "urgent!!") ∧
    (execute_tool (J.str "save_workflow_memory")
        (J.obj [("content", J.str "x"), ("importance", J.str "urgent!!")]) "m2" "T"
        initialState).2.workflow_memory
      = initialState.workflow_memory ++ [⟨"m2", J.str "x", J.str "urgent!!", "T"⟩] ∧
    pyTitle "urgent!!" = "Urgent!!" :=
  ⟨rfl,
   (importance_not_validated [("content", J.str "x"), ("importance", J.str "urgent!!")]
      "x" "urgent!!" "m2" "T" initialState rfl rfl).1,
   rfl⟩

/-- C4: a valid `create_workflow_session` call with a non-empty string
`session_name` (and a generated identifier not already a key, the
uniqueness the data-model invariants assume of fresh identifiers) grows
the session dict by exactly one, the new identifier is a key afterwards,
and the confirmation text embeds that same identifier. -/
theorem create_session_inserts (kvs : List (String × J)) (name fid now : String)
    (st : ServerState)
    (hn : jGet kvs "session_name" J.null = J.str name)
    (hne : name ≠ "")
    (hfresh : st.workflow_sessions.lookup fid = none) :
    (execute_tool (J.str "create_workflow_session") (J.obj kvs) fid now
        st).2.workflow_sessions.length = st.workflow_sessions.length + 1 ∧
    (execute_tool (J.str "create_workflow_session") (J.obj kvs) fid now
        st).2.workflow_sessions.lookup fid
      = some ⟨J.str name, jGet kvs "purpose" (J.str "General"), now, "active"⟩ ∧
    (execute_tool (J.str "create_workflow_session") (J.obj kvs) fid now st).1 =
      .ok ("✅ **Workflow Session Created!**\n\n" ++
           "📋 **Details:**\n" ++
           "• Name: " ++ name ++ "\n" ++
           "• Purpose: " ++ pyStr (jGet kvs "purpose" (J.str "General")) ++ "\n" ++
           "• Session ID: " ++ fid ++ "\n" ++
           "• Status: Active\n\n" ++
           "🎯 **Continuity Features:**\n" ++
           "• Token limit monitoring: ✅\n" ++
           "• Context preservation: ✅\n" ++
           "• Zero-restart guarantee: ✅") := by
  rw [execute_tool_create]
  simp only [createSessionTool, hn]
  refine ⟨?_, ?_, ?_⟩
  · exact dictInsert_length_of_lookup_none st.workflow_sessions fid _ hfresh
  · exact dictInsert_lookup_self st.workflow_sessions fid _
  · simp [createText, pyStr]

/-- Witness for C4 at `session_name = "proj"` on the empty state. -/
theorem create_session_inserts_witness :
    (jGet [("session_name", J.str "proj")] "session_name" J.null = J.str "proj") ∧
    ("proj" : String) ≠ "" ∧
    (execute_tool (J.str "create_workflow_session")
        (J.obj [("session_name", J.str "proj")]) "abc12345" "T"
        initialState).2.workflow_sessions.length
      = initialState.workflow_sessions.length + 1 :=
  ⟨rfl, by decide,
   (create_session_inserts [("session_name", J.str "proj")] "proj" "abc12345" "T"
      initialState rfl (by decide) rfl).1⟩

/-- C7: `check_continuity_status` never mutates either collection (for any
arguments value); `detailed = false` yields exactly the single-line
summary (which carries the two live counts and none of the verbose metric
block); `detailed = true` — also the value taken when the key is omitted,
since the `.get` default is `True` — yields exactly the verbose report,
whose current-stats block carries the same live counts. -/
theorem check_status_spec (kvs : List (String × J)) (fid now : String) (st : ServerState) :
    (∀ a : J, (execute_tool (J.str "check_continuity_status") a fid now st).2 = st) ∧
    (jGet kvs "detailed" (J.bool true) = J.bool false →
      execute_tool (J.str "check_continuity_status") (J.obj kvs) fid now st =
        (.ok ("✅ System operational | Sessions: " ++ toString st.workflow_sessions.length ++
              " | Memory: " ++ toString st.workflow_memory.length), st)) ∧
    (jGet kvs "detailed" (J.bool true) = J.bool true →
      execute_tool (J.str "check_continuity_status") (J.obj kvs) fid now st =
        (.ok (detailedText st.workflow_sessions.length st.workflow_memory.length), st)) := by
  refine ⟨?_, ?_, ?_⟩
  · intro a
    rw [execute_tool_check]
    exact checkStatusTool_state a st
  · intro h
    rw [execute_tool_check]
    simp [checkStatusTool, h, J.truthy, briefText]
  · intro h
    rw [execute_tool_check]
    simp [checkStatusTool, h, J.truthy]

/-- Witness for C7: with `detailed = false` on the empty state the result
is the single-line summary and the state is unchanged. -/
theorem check_status_spec_witness :
    (jGet [("detailed", J.bool false)] "detailed" (J.bool true) = J.bool false) ∧
    execute_tool (J.str "check_continuity_status") (J.obj [("detailed", J.bool false)])
        "f" "t" initialState =
      (.ok ("✅ System operational | Sessions: " ++
            toString initialState.workflow_sessions.length ++
            " | Memory: " ++ toString initialState.workflow_memory.length), initialState) :=
  ⟨rfl,
   (check_status_spec [("detailed", J.bool false)] "f" "t" initialState).2.1 rfl⟩

/-- Any `execute_tool` call leaves the session dict untouched, or (only
the `create_workflow_session` branch) performs one insert at the generated
identifier, of a record whose status is `"active"`. -/
lemma execute_tool_sessions_shape (tn args : J) (fid now : String) (st : ServerState) :
    (execute_tool tn args fid now st).2.workflow_sessions = st.workflow_sessions ∨
    ∃ r : SessionRec, r.status = "active" ∧
      (execute_tool tn args fid now st).2.workflow_sessions
        = dictInsert st.workflow_sessions fid r := by
  unfold execute_tool
  by_cases h1 : tn.isStr "create_workflow_session" = true
  · rw [if_pos h1]
    cases args with
    | obj kvs => exact Or.inr ⟨_, rfl, rfl⟩
    | null => exact Or.inl rfl
    | bool b => exact Or.inl rfl
    | num n => exact Or.inl rfl
    | str s => exact Or.inl rfl
    | arr xs => exact Or.inl rfl
  rw [if_neg h1]
  by_cases h2 : tn.isStr "save_workflow_memory" = true
  · rw [if_pos h2]
    exact Or.inl (saveMemoryTool_state args fid now st).1
  rw [if_neg h2]
  by_cases h3 : tn.isStr "check_continuity_status" = true
  · rw [if_pos h3]
    rw [checkStatusTool_state args st]
    exact Or.inl rfl
  · rw [if_neg h3]
    exact Or.inl rfl

/-- Version of `execute_tool_sessions_shape` for a `tools/call` dispatch. -/
lemma toolsCallDispatch_sessions_shape (j i p : J) (fid now : String) (st : ServerState) :
    (toolsCallDispatch j i p fid now st).2.workflow_sessions = st.workflow_sessions ∨
    ∃ r : SessionRec, r.status = "active" ∧
      (toolsCallDispatch j i p fid now st).2.workflow_sessions
        = dictInsert st.workflow_sessions fid r := by
  cases p with
  | obj pkvs =>
    simp only [toolsCallDispatch, toolCallResponse_snd]
    exact execute_tool_sessions_shape _ _ fid now st
  | null => exact Or.inl rfl
  | bool b => exact Or.inl rfl
  | num n => exact Or.inl rfl
  | str s => exact Or.inl rfl
  | arr xs => exact Or.inl rfl

/-- Lift of `execute_tool_sessions_shape` to whole `POST /mcp` requests. -/
lemma mcp_endpoint_sessions_shape (body : J) (fid now : String) (st : ServerState) :
    (mcp_endpoint body fid now st).2.workflow_sessions = st.workflow_sessions ∨
    ∃ r : SessionRec, r.status = "active" ∧
      (mcp_endpoint body fid now st).2.workflow_sessions
        = dictInsert st.workflow_sessions fid r := by
  cases body with
  | obj data =>
    simp only [mcp_endpoint]
    by_cases h1 : (jGet data "method" J.null).isStr "initialize" = true
    · rw [if_pos h1]
      exact Or.inl rfl
    rw [if_neg h1]
    by_cases h2 : (jGet data "method" J.null).isStr "tools/list" = true
    · rw [if_pos h2]
      exact Or.inl rfl
    rw [if_neg h2]
    by_cases h3 : (jGet data "method" J.null).isStr "tools/call" = true
    · rw [if_pos h3]
      exact toolsCallDispatch_sessions_shape _ _ _ fid now st
    · rw [if_neg h3]
      exact Or.inl rfl
  | null => exact Or.inl rfl
  | bool b => exact Or.inl rfl
  | num n => exact Or.inl rfl
  | str s => exact Or.inl rfl
  | arr xs => exact Or.inl rfl

lemma createSessionTool_fst_indep (args : J) (fid now : String) (st : ServerState)
    (l2 : List (String × SessionRec)) :
    (createSessionTool args fid now { st with workflow_sessions := l2 }).1
      = (createSessionTool args fid now st).1 := by
  cases args <;> rfl

lemma saveMemoryTool_fst_indep (args : J) (fid now : String) (st : ServerState)
    (l2 : List (String × SessionRec)) :
    (saveMemoryTool args fid now { st with workflow_sessions := l2 }).1
      = (saveMemoryTool args fid now st).1 := by
  cases args with
  | obj kvs =>
    simp only [saveMemoryTool]
    split
    · rfl
    split
    · rfl
    split <;> rfl
  | null => rfl
  | bool b => rfl
  | num n => rfl
  | str s => rfl
  | arr xs => rfl

lemma checkStatusTool_fst_indep (args : J) (st : ServerState)
    (l2 : List (String × SessionRec)) (h : l2.length = st.workflow_sessions.length) :
    (checkStatusTool args { st with workflow_sessions := l2 }).1
      = (checkStatusTool args st).1 := by
  cases args with
  | obj kvs =>
    simp only [checkStatusTool]
    split <;> simp [h]
  | null => rfl
  | bool b => rfl
  | num n => rfl
  | str s => rfl
  | arr xs => rfl

/-- The response of `execute_tool` depends on the session dict only
through its size: replacing the stored records by any list of the same
length leaves the response unchanged (stored sessions are never read
back). -/
lemma execute_tool_fst_indep (tn args : J) (fid now : String) (st : ServerState)
    (l2 : List (String × SessionRec)) (h : l2.length = st.workflow_sessions.length) :
    (execute_tool tn args fid now { st with workflow_sessions := l2 }).1
      = (execute_tool tn args fid now st).1 := by
  unfold execute_tool
  by_cases h1 : tn.isStr "create_workflow_session" = true
  · simp only [if_pos h1]
    exact createSessionTool_fst_indep args fid now st l2
  simp only [if_neg h1]
  by_cases h2 : tn.isStr "save_workflow_memory" = true
  · simp only [if_pos h2]
    exact saveMemoryTool_fst_indep args fid now st l2
  simp only [if_neg h2]
  by_cases h3 : tn.isStr "check_continuity_status" = true
  · simp only [if_pos h3]
    exact checkStatusTool_fst_indep args st l2 h
  · simp only [if_neg h3]

/-- Version of `execute_tool_fst_indep` for a `tools/call` dispatch. -/
lemma toolsCallDispatch_fst_indep (j i p : J) (fid now : String) (st : ServerState)
    (l2 : List (String × SessionRec)) (h : l2.length = st.workflow_sessions.length) :
    (toolsCallDispatch j i p fid now { st with workflow_sessions := l2 }).1
      = (toolsCallDispatch j i p fid now st).1 := by
  cases p with
  | obj pkvs =>
    simp only [toolsCallDispatch]
    exact toolCallResponse_fst_congr _ _ _ _ (execute_tool_fst_indep _ _ fid now st l2 h)
  | null => rfl
  | bool b => rfl
  | num n => rfl
  | str s => rfl
  | arr xs => rfl

/-- Lift of `execute_tool_fst_indep` to whole requests. -/
lemma mcp_endpoint_fst_indep (body : J) (fid now : String) (st : ServerState)
    (l2 : List (String × SessionRec)) (h : l2.length = st.workflow_sessions.length) :
    (mcp_endpoint body fid now { st with workflow_sessions := l2 }).1
      = (mcp_endpoint body fid now st).1 := by
  cases body with
  | obj data =>
    simp only [mcp_endpoint]
    by_cases h1 : (jGet data "method" J.null).isStr "initialize" = true
    · simp only [if_pos h1]
    simp only [if_neg h1]
    by_cases h2 : (jGet data "method" J.null).isStr "tools/list" = true
    · simp only [if_pos h2]
    simp only [if_neg h2]
    by_cases h3 : (jGet data "method" J.null).isStr "tools/call" = true
    · simp only [if_pos h3]
      exact toolsCallDispatch_fst_indep _ _ _ fid now st l2 h
    · simp only [if_neg h3]
  | null => rfl
  | bool b => rfl
  | num n => rfl
  | str s => rfl
  | arr xs => rfl

/-- C8: (i) in every state reachable by any sequence of requests, every
stored session has status `"active"`; (ii) no request ever updates or
deletes a stored session: an existing entry whose key differs from the
freshly generated identifier survives every request unchanged; (iii) no
request ever reads a stored session back: the response depends on the
session dict only through its size. -/
theorem session_invariant_immutable :
    (∀ st : ServerState, Reachable st →
       ∀ p ∈ st.workflow_sessions, p.2.status = "active") ∧
    (∀ (body : J) (fid now : String) (st : ServerState) (p : String × SessionRec),
       p ∈ st.workflow_sessions → p.1 ≠ fid →
       p ∈ (mcp_endpoint body fid now st).2.workflow_sessions) ∧
    (∀ (body : J) (fid now : String) (st : ServerState)
       (l2 : List (String × SessionRec)), l2.length = st.workflow_sessions.length →
       (mcp_endpoint body fid now { st with workflow_sessions := l2 }).1
         = (mcp_endpoint body fid now st).1) := by
  refine ⟨?_, ?_, mcp_endpoint_fst_indep⟩
  · intro st hst
    induction hst with
    | init =>
      intro p hp
      cases hp
    | step body fid now hst ih =>
      rename_i st0
      intro p hp
      rcases mcp_endpoint_sessions_shape body fid now st0 with hsame | ⟨r, hr, hins⟩
      · rw [hsame] at hp
        exact ih p hp
      · rw [hins] at hp
        rcases mem_dictInsert p st0.workflow_sessions fid r hp with hmem | hpeq
        · exact ih p hmem
        · rw [hpeq]
          exact hr
  · intro body fid now st p hp hne
    rcases mcp_endpoint_sessions_shape body fid now st with hsame | ⟨r, _, hins⟩
    · rw [hsame]
      exact hp
    · rw [hins]
      exact mem_dictInsert_of_ne p st.workflow_sessions fid r hp hne

/-- Witness for C8: the stored session survives a further request whose
generated identifier differs. -/
theorem session_invariant_immutable_witness :
    (("s1", demoSession) ∈ demoState.workflow_sessions ∧ ("s1", demoSession).1 ≠ "f2") ∧
    ("s1", demoSession) ∈ (mcp_endpoint J.null "f2" "T1" demoState).2.workflow_sessions :=
  ⟨⟨List.Mem.head _, by decide⟩,
   session_invariant_immutable.2.1 J.null "f2" "T1" demoState ("s1", demoSession)
     (List.Mem.head _) (by decide)⟩

/-- Witness for C9: `detailed = 0` (falsy but not `false`) selects the
single-line summary. -/
theorem detailed_falsy_gives_summary_witness :
    (jGet [("detailed", J.num 0)] "detailed" (J.bool true)).truthy = false ∧
    execute_tool (J.str "check_continuity_status") (J.obj [("detailed", J.num 0)])
        "f" "t" initialState =
      (.ok (briefText initialState.workflow_sessions.length
              initialState.workflow_memory.length), initialState) :=
  ⟨rfl, detailed_falsy_gives_summary [("detailed", J.num 0)] "f" "t" initialState rfl⟩

end WorkflowMcp
